import Mathlib

/-!
Shallow embedding of `src/probe-rs/src/probe/bmp/mod.rs` — the Black Magic
Probe (BMP) family of the probe-rs probe abstraction — together with proofs
about its construction, discovery, protocol-selection, speed and reset
operations.

Host-side I/O (the serial stack's `available_ports` / `open`, and the USB
stack's descriptor reads) is out of the repository's scope; its outcomes are
passed in explicitly as data (an `Except` for enumeration, per-port /
per-device fields recording whether each read or open would succeed), so the
embedded functions are pure and mirror the Rust control flow exactly.
-/

namespace BMP

/-- The wire protocols of the probe abstraction (`WireProtocol` enum,
declared in the crate root). -/
inductive WireProtocol
  | Swd
  | Jtag
deriving DecidableEq, Repr

/-- Modelled from the spec: `DebugProbeError` is declared outside `src/`
(crate root); the spec names the `UnsupportedProtocol(protocol)` variant,
which must carry the offending protocol value; `other` stands for the
remaining, general variants. -/
inductive DebugProbeError
  | UnsupportedProtocol (protocol : WireProtocol)
  | other
deriving DecidableEq, Repr

/-- Modelled from the spec: `ProbeCreationError` is declared outside `src/`
(`crate::probe`); the spec's taxonomy names `NotFound` ("no matching,
openable device found"); `other` stands for any other variant of the type. -/
inductive ProbeCreationError
  | NotFound
  | other
deriving DecidableEq, Repr

/-- Modelled from the spec: the probe-family discriminant
(`DebugProbeType`); only the `BMP` variant is relevant here. -/
inductive DebugProbeType
  | BMP
deriving DecidableEq, Repr

/-- Modelled from the spec: `DebugProbeInfo`, the ProbeIdentity record
produced by discovery (identifier, vendor id, product id, optional serial
number, probe kind). -/
structure DebugProbeInfo where
  identifier : String
  vendor_id : Nat
  product_id : Nat
  serial_number : Option String
  probe_type : DebugProbeType
deriving DecidableEq, Repr

/-- Modelled from the spec: `DebugProbeSelector` (crate root) — vendor id,
product id, optional serial number.  `open_device_from_selector` reads only
the vendor and product ids. -/
structure DebugProbeSelector where
  vendor_id : Nat
  product_id : Nat
  serial_number : Option String
deriving DecidableEq, Repr

/-- USB metadata of a serial port (`serialport::UsbPortInfo`), restricted to
the fields the source reads: `vid` and `pid`. -/
structure UsbPortInfo where
  vid : Nat
  pid : Nat
deriving DecidableEq, Repr

/-- Embeds `serialport::SerialPortType`: either a USB-backed port with its metadata,
or any other transport (`Other` collapses the remaining variants, which the
source treats alike via its catch-all match arm). -/
inductive SerialPortType
  | UsbPort (info : UsbPortInfo)
  | NonUsb
deriving DecidableEq, Repr

/-- One entry of `serialport::available_ports()`: the port name and type,
plus the host-stack outcome `open_ok` recording whether
`serialport::new(port_name, 115200).timeout(10ms).open()` would succeed on
this port (environment oracle for the out-of-scope serial stack). -/
structure SerialPortInfo where
  port_name : String
  port_type : SerialPortType
  open_ok : Bool
deriving DecidableEq, Repr

/-- Embeds `BMPDevice` owns the opened serial port (`_port: Box<dyn SerialPort>`);
the embedding records the opened port by name. -/
structure BMPDevice where
  port_name : String
deriving DecidableEq, Repr

/-- Embeds `BMPProbe`: the concrete probe — its transport device, selected wire
protocol and speed in kHz (`u32` in the source; values stay in `[0, 2^32)`
because `set_speed` only stores its argument). -/
structure BMPProbe where
  device : BMPDevice
  protocol : WireProtocol
  speed : Nat
deriving DecidableEq, Repr

/-- Embeds `BMPProbe::new_from_device`: wraps a device with the default session
parameters — protocol SWD, speed 1000 kHz. -/
def BMPProbe.new_from_device (device : BMPDevice) : BMPProbe :=
  { device := device, protocol := WireProtocol.Swd, speed := 1000 }

/-- The loop body of `open_device_from_selector` over the enumerated port
list: skip non-USB ports and USB ports whose vid/pid differ from the
selector's; at the first match, return the opened device if the open
succeeds and `NotFound` if it fails; return `NotFound` when the list is
exhausted. -/
def openLoop (selector : DebugProbeSelector) :
    List SerialPortInfo → Except ProbeCreationError BMPDevice
  | [] => Except.error ProbeCreationError.NotFound
  | p :: rest =>
    match p.port_type with
    | SerialPortType.UsbPort info =>
        if info.vid = selector.vendor_id ∧ info.pid = selector.product_id then
          if p.open_ok then Except.ok { port_name := p.port_name }
          else Except.error ProbeCreationError.NotFound
        else openLoop selector rest
    | SerialPortType.NonUsb => openLoop selector rest

/-- Embeds `open_device_from_selector`: resolve a selector against the outcome of
`available_ports()` (which may itself fail, mapped to `NotFound`). -/
def open_device_from_selector (selector : DebugProbeSelector)
    (ports : Except Unit (List SerialPortInfo)) :
    Except ProbeCreationError BMPDevice :=
  match ports with
  | Except.ok ps => openLoop selector ps
  | Except.error _ => Except.error ProbeCreationError.NotFound

/-- Embeds `BMPProbe::new_from_selector` (the `DebugProbe` constructor): open the
device and wrap it with the default session parameters.  The source converts
the `ProbeCreationError` with `?`; the conversion lives outside `src/`, so
the error channel is kept at `ProbeCreationError` here. -/
def BMPProbe.new_from_selector (selector : DebugProbeSelector)
    (ports : Except Unit (List SerialPortInfo)) :
    Except ProbeCreationError BMPProbe :=
  (open_device_from_selector selector ports).map BMPProbe.new_from_device

/-- Embeds `BMPProbe::get_name`. -/
def BMPProbe.get_name (_p : BMPProbe) : String :=
  "Black Magic Probe"

/-- Embeds `BMPProbe::set_speed`: store the argument and return it. -/
def BMPProbe.set_speed (p : BMPProbe) (speed_khz : Nat) :
    BMPProbe × Except DebugProbeError Nat :=
  ({ p with speed := speed_khz }, Except.ok speed_khz)

/-- Embeds `BMPProbe::attach`: logs the stored protocol and returns `Ok(())`;
no state is inspected or changed. -/
def BMPProbe.attach (p : BMPProbe) : BMPProbe × Except DebugProbeError Unit :=
  (p, Except.ok ())

/-- Embeds `BMPProbe::select_protocol`: every protocol other than JTAG is rejected
with `UnsupportedProtocol` carrying that protocol; no field is written. -/
def BMPProbe.select_protocol (p : BMPProbe) (protocol : WireProtocol) :
    BMPProbe × Except DebugProbeError Unit :=
  if protocol ≠ WireProtocol.Jtag then
    (p, Except.error (DebugProbeError.UnsupportedProtocol protocol))
  else
    (p, Except.ok ())

/-- Embeds `BMPProbe::detach`: returns `Ok(())` unconditionally. -/
def BMPProbe.detach (p : BMPProbe) : BMPProbe × Except DebugProbeError Unit :=
  (p, Except.ok ())

/-- Outcome of a reset operation: an ordinary result, or a Rust panic (the
source's `unimplemented!()`, which panics with a "not implemented"
message and never returns). -/
inductive ResetOutcome
  | ok
  | err (e : DebugProbeError)
  | panics
deriving DecidableEq, Repr

/-- Embeds `BMPProbe::target_reset`: `unimplemented!()` — panics. -/
def BMPProbe.target_reset (_p : BMPProbe) : ResetOutcome :=
  ResetOutcome.panics

/-- Embeds `BMPProbe::target_reset_assert`: `unimplemented!()` — panics. -/
def BMPProbe.target_reset_assert (_p : BMPProbe) : ResetOutcome :=
  ResetOutcome.panics

/-- Embeds `BMPProbe::target_reset_deassert`: `unimplemented!()` — panics. -/
def BMPProbe.target_reset_deassert (_p : BMPProbe) : ResetOutcome :=
  ResetOutcome.panics

/-- Embeds `BMPProbe::has_arm_interface`: always `true`. -/
def BMPProbe.has_arm_interface (_p : BMPProbe) : Bool :=
  true

/-- The device-descriptor fields `get_bmp_info` reads
(`rusb::DeviceDescriptor`). -/
structure DeviceDescriptor where
  vendor_id : Nat
  product_id : Nat
deriving DecidableEq, Repr

/-- One enumerated USB device, with the outcomes of the out-of-scope rusb
calls `get_bmp_info` performs recorded as data: `descriptor` is
`device_descriptor().ok()`, `open_ok` is whether `device.open()` succeeds,
`languages` is `read_languages(timeout).ok()`, `product_string` is
`read_product_string(language, desc, timeout).ok()` and
`serial_number_string` likewise for the serial-number descriptor. -/
structure UsbDevice where
  descriptor : Option DeviceDescriptor
  open_ok : Bool
  languages : Option (List Nat)
  product_string : Option String
  serial_number_string : Option String
deriving DecidableEq, Repr

/-- Embeds Rust `str::starts_with`: whether the characters of `s` begin with
the characters of `p` (byte-for-byte in the source; character-for-character
here, which coincides on valid UTF-8). -/
def stringStartsWith (s p : String) : Bool :=
  List.isPrefixOf p.data s.data

/-- Embeds `get_bmp_info`: classify one USB device — vendor id must be `0x1d50`,
the device must open, the language table must be readable and non-empty, the
product string must be readable and start with "Black Magic Probe"; any
failure yields `none`, never an error. -/
def get_bmp_info (device : UsbDevice) : Option DebugProbeInfo := do
  let d_desc ← device.descriptor
  if d_desc.vendor_id ≠ 0x1d50 then
    none
  else do
    let _ ← (if device.open_ok then some () else none)
    let langs ← device.languages
    let _language ← langs.get? 0
    let prod_str ← device.product_string
    let sn_str := device.serial_number_string
    if stringStartsWith prod_str ("Black Magic Probe") then
      some { identifier := prod_str, vendor_id := d_desc.vendor_id,
             product_id := d_desc.product_id, serial_number := sn_str,
             probe_type := DebugProbeType.BMP }
    else
      none

/-- Embeds `list_bmp_devices`: over the outcome of
`rusb::Context::new().and_then(|ctx| ctx.devices())` — on error, the empty
list; on success, `filter_map(get_bmp_info)` over the devices. -/
def list_bmp_devices (enumeration : Except Unit (List UsbDevice)) :
    List DebugProbeInfo :=
  match enumeration with
  | Except.ok devices => devices.filterMap get_bmp_info
  | Except.error _ => []

/-- Whether a serial port is USB-backed and its vid/pid match the selector —
the guard of `open_device_from_selector`'s inner branch. -/
def matchesSelector (selector : DebugProbeSelector) (p : SerialPortInfo) : Bool :=
  match p.port_type with
  | SerialPortType.UsbPort info =>
      decide (info.vid = selector.vendor_id ∧ info.pid = selector.product_id)
  | SerialPortType.NonUsb => false


/-! ## Helper lemmas about the construction loop -/

/-- A port that does not match the selector is skipped by the loop. -/
theorem openLoop_cons_nomatch (selector : DebugProbeSelector) (p : SerialPortInfo)
    (rest : List SerialPortInfo) (hp : matchesSelector selector p = false) :
    openLoop selector (p :: rest) = openLoop selector rest := by
  obtain ⟨name, pt, ok⟩ := p
  cases pt with
  | UsbPort info =>
      simp only [matchesSelector, decide_eq_false_iff_not] at hp
      simp [openLoop, hp]
  | NonUsb => simp [openLoop]

/-- At a matching port, the loop returns according to that port's open
outcome, regardless of what follows. -/
theorem openLoop_cons_match (selector : DebugProbeSelector) (p : SerialPortInfo)
    (rest : List SerialPortInfo) (hp : matchesSelector selector p = true) :
    openLoop selector (p :: rest)
      = (if p.open_ok then Except.ok { port_name := p.port_name }
          else Except.error ProbeCreationError.NotFound) := by
  obtain ⟨name, pt, ok⟩ := p
  cases pt with
  | UsbPort info =>
      simp only [matchesSelector, decide_eq_true_eq] at hp
      simp [openLoop, hp]
  | NonUsb => simp [matchesSelector] at hp

/-- A run of non-matching ports at the front of the list is skipped whole. -/
theorem openLoop_append_nomatch (selector : DebugProbeSelector)
    (pre rest : List SerialPortInfo)
    (h : ∀ q ∈ pre, matchesSelector selector q = false) :
    openLoop selector (pre ++ rest) = openLoop selector rest := by
  induction pre with
  | nil => rfl
  | cons p ps ih =>
      rw [List.cons_append,
        openLoop_cons_nomatch selector p (ps ++ rest) (h p (List.mem_cons_self p ps))]
      exact ih (fun q hq => h q (List.mem_cons_of_mem p hq))

/-- The loop is total and its only error value is `NotFound`. -/
theorem openLoop_total (selector : DebugProbeSelector) (ps : List SerialPortInfo) :
    openLoop selector ps = Except.error ProbeCreationError.NotFound
    ∨ ∃ d, openLoop selector ps = Except.ok d := by
  induction ps with
  | nil => exact Or.inl rfl
  | cons p rest ih =>
      obtain ⟨name, pt, ok⟩ := p
      cases pt with
      | UsbPort info =>
          by_cases hc : info.vid = selector.vendor_id ∧ info.pid = selector.product_id
          · cases ok with
            | false => exact Or.inl (by simp [openLoop, hc])
            | true => exact Or.inr ⟨{ port_name := name }, by simp [openLoop, hc]⟩
          · simpa [openLoop, hc] using ih
      | NonUsb => simpa [openLoop] using ih

/-! ## Concrete fixtures for counterexamples and witnesses -/

/-- A selector with the BMP vendor id and an arbitrary product id. -/
def selBMP : DebugProbeSelector :=
  { vendor_id := 0x1d50, product_id := 0xABCD, serial_number := none }

/-- A USB-backed port matching `selBMP` whose open fails. -/
def portMatchFailOpen : SerialPortInfo :=
  { port_name := "ttyA",
    port_type := SerialPortType.UsbPort { vid := 0x1d50, pid := 0xABCD },
    open_ok := false }

/-- A USB-backed port matching `selBMP` whose open succeeds. -/
def portMatchOpens : SerialPortInfo :=
  { port_name := "ttyB",
    port_type := SerialPortType.UsbPort { vid := 0x1d50, pid := 0xABCD },
    open_ok := true }

/-- A non-USB serial port. -/
def portNonUsb : SerialPortInfo :=
  { port_name := "ttyS0", port_type := SerialPortType.NonUsb, open_ok := true }

/-- A sample opened device. -/
def sampleDevice : BMPDevice := { port_name := "ttyACM0" }

/-! ## Claims -/

/-- C1 counterexample: on a freshly constructed probe on which
`select_protocol` has never been called, `attach` returns `Ok(())` — it does
not fail with a `DebugProbeError` as the claim states. -/
theorem C1_counterexample :
    (BMPProbe.attach (BMPProbe.new_from_device sampleDevice)).2 = Except.ok () :=
  rfl

/-- C1 (amended): on a freshly constructed probe on which `select_protocol`
has never been called, `attach` succeeds with `Ok(())`, leaving the probe
unchanged: it silently attaches with the protocol defaulted at construction,
SWD. -/
theorem C1_attach_before_select (d : BMPDevice) :
    BMPProbe.attach (BMPProbe.new_from_device d)
      = (BMPProbe.new_from_device d, Except.ok ())
    ∧ (BMPProbe.new_from_device d).protocol = WireProtocol.Swd :=
  ⟨rfl, rfl⟩

/-- C2: `select_protocol p` returns `Ok` iff `p = Jtag`; selecting SWD — the
protocol the probe is constructed with by default — fails with
`UnsupportedProtocol(Swd)`; and `select_protocol` mutates no field of the
probe. -/
theorem C2_select_protocol_iff_jtag (p : BMPProbe) (proto : WireProtocol)
    (d : BMPDevice) :
    ((p.select_protocol proto).2 = Except.ok () ↔ proto = WireProtocol.Jtag)
    ∧ (p.select_protocol WireProtocol.Swd).2
        = Except.error (DebugProbeError.UnsupportedProtocol WireProtocol.Swd)
    ∧ (p.select_protocol proto).1 = p
    ∧ (BMPProbe.new_from_device d).protocol = WireProtocol.Swd := by
  refine ⟨?_, rfl, ?_, rfl⟩ <;> cases proto <;> simp [BMPProbe.select_protocol]

/-- C3: every protocol the family cannot speak (anything but JTAG) is
rejected with `UnsupportedProtocol` carrying exactly the rejected value. -/
theorem C3_unsupported_carries_value (p : BMPProbe) (proto : WireProtocol)
    (h : proto ≠ WireProtocol.Jtag) :
    (p.select_protocol proto).2
      = Except.error (DebugProbeError.UnsupportedProtocol proto) := by
  simp [BMPProbe.select_protocol, h]

/-- C3 witness: selecting SWD on a concrete probe is rejected with
`UnsupportedProtocol(Swd)`. -/
theorem C3_witness :
    (BMPProbe.select_protocol (BMPProbe.new_from_device sampleDevice)
        WireProtocol.Swd).2
      = Except.error (DebugProbeError.UnsupportedProtocol WireProtocol.Swd) :=
  C3_unsupported_carries_value _ _ (by decide)

/-- C4 counterexample: the port list `[portMatchFailOpen, portMatchOpens]`
contains a USB-backed port (the second) whose vid/pid equal the selector's
and whose open succeeds, yet construction fails with `NotFound`: the first
matching port's failed open ends the search, refuting the claim as stated. -/
theorem C4_counterexample :
    matchesSelector selBMP portMatchOpens = true
    ∧ portMatchOpens.open_ok = true
    ∧ BMPProbe.new_from_selector selBMP
        (Except.ok [portMatchFailOpen, portMatchOpens])
      = Except.error ProbeCreationError.NotFound :=
  ⟨rfl, rfl, rfl⟩

/-- C4 (amended): for every serial-port list whose FIRST USB-backed port
with the selector's vid/pid opens successfully, construction succeeds and
the returned probe has protocol SWD and speed 1000 kHz. -/
theorem C4_construction_defaults (selector : DebugProbeSelector)
    (pre : List SerialPortInfo) (m : SerialPortInfo) (rest : List SerialPortInfo)
    (hpre : ∀ q ∈ pre, matchesSelector selector q = false)
    (hm : matchesSelector selector m = true) (hopen : m.open_ok = true) :
    BMPProbe.new_from_selector selector (Except.ok (pre ++ m :: rest))
      = Except.ok (BMPProbe.new_from_device { port_name := m.port_name })
    ∧ (BMPProbe.new_from_device { port_name := m.port_name }).protocol
        = WireProtocol.Swd
    ∧ (BMPProbe.new_from_device { port_name := m.port_name }).speed = 1000 := by
  refine ⟨?_, rfl, rfl⟩
  show (openLoop selector (pre ++ m :: rest)).map BMPProbe.new_from_device = _
  rw [openLoop_append_nomatch selector pre _ hpre,
    openLoop_cons_match selector m rest hm, hopen]
  rfl

/-- C4 witness: one matching simulated serial port that opens — construction
returns the probe with the default protocol SWD and speed 1000. -/
theorem C4_witness :
    BMPProbe.new_from_selector selBMP (Except.ok [portMatchOpens])
      = Except.ok (BMPProbe.new_from_device { port_name := "ttyB" })
    ∧ (BMPProbe.new_from_device { port_name := "ttyB" }).protocol
        = WireProtocol.Swd
    ∧ (BMPProbe.new_from_device { port_name := "ttyB" }).speed = 1000 :=
  C4_construction_defaults selBMP [] portMatchOpens []
    (by decide) (by decide) (by decide)

/-- C6: construction fails with exactly `NotFound` when enumeration itself
fails, when no enumerated port matches the selector, and when the first
matching port fails to open; and on every input the result is either a
successfully opened device or `NotFound` — never another error, never a
panic (the embedded function is total). -/
theorem C6_notfound_collapse (selector : DebugProbeSelector)
    (ports : List SerialPortInfo) :
    open_device_from_selector selector (Except.error ())
      = Except.error ProbeCreationError.NotFound
    ∧ ((∀ q ∈ ports, matchesSelector selector q = false) →
        open_device_from_selector selector (Except.ok ports)
          = Except.error ProbeCreationError.NotFound)
    ∧ (∀ pre m rest, (∀ q ∈ pre, matchesSelector selector q = false) →
        matchesSelector selector m = true → m.open_ok = false →
        open_device_from_selector selector (Except.ok (pre ++ m :: rest))
          = Except.error ProbeCreationError.NotFound)
    ∧ (∀ res, open_device_from_selector selector res
          = Except.error ProbeCreationError.NotFound
        ∨ ∃ d, open_device_from_selector selector res = Except.ok d) := by
  refine ⟨rfl, ?_, ?_, ?_⟩
  · intro h
    have h2 := openLoop_append_nomatch selector ports [] h
    rw [List.append_nil] at h2
    exact h2
  · intro pre m rest hpre hm hopen
    show openLoop selector (pre ++ m :: rest) = _
    rw [openLoop_append_nomatch selector pre _ hpre,
      openLoop_cons_match selector m rest hm, hopen]
    rfl
  · intro res
    cases res with
    | error u => exact Or.inl rfl
    | ok ps => exact openLoop_total selector ps

/-- C6 witness: enumeration failure, a list with no matching port, and a
matching port that fails to open all yield exactly `NotFound`. -/
theorem C6_witness :
    open_device_from_selector selBMP (Except.error ())
      = Except.error ProbeCreationError.NotFound
    ∧ open_device_from_selector selBMP (Except.ok [portNonUsb])
      = Except.error ProbeCreationError.NotFound
    ∧ open_device_from_selector selBMP (Except.ok [portMatchFailOpen])
      = Except.error ProbeCreationError.NotFound :=
  ⟨(C6_notfound_collapse selBMP [portNonUsb]).1,
   (C6_notfound_collapse selBMP [portNonUsb]).2.1 (by decide),
   (C6_notfound_collapse selBMP []).2.2.1 [] portMatchFailOpen []
     (by decide) (by decide) (by decide)⟩

/-- C7: first-match policy — at the first USB-backed port matching the
selector's vid/pid, construction returns that port's open outcome (`Ok` on
success, `NotFound` on failure), and the result is identical for every
continuation of the list past that port: no later port is ever examined. -/
theorem C7_first_match_policy (selector : DebugProbeSelector)
    (pre : List SerialPortInfo) (m : SerialPortInfo)
    (rest rest2 : List SerialPortInfo)
    (hpre : ∀ q ∈ pre, matchesSelector selector q = false)
    (hm : matchesSelector selector m = true) :
    open_device_from_selector selector (Except.ok (pre ++ m :: rest))
      = (if m.open_ok then Except.ok { port_name := m.port_name }
          else Except.error ProbeCreationError.NotFound)
    ∧ open_device_from_selector selector (Except.ok (pre ++ m :: rest))
      = open_device_from_selector selector (Except.ok (pre ++ m :: rest2)) := by
  have key : ∀ tail, open_device_from_selector selector (Except.ok (pre ++ m :: tail))
      = (if m.open_ok then Except.ok { port_name := m.port_name }
          else Except.error ProbeCreationError.NotFound) := by
    intro tail
    show openLoop selector (pre ++ m :: tail) = _
    rw [openLoop_append_nomatch selector pre _ hpre,
      openLoop_cons_match selector m tail hm]
  exact ⟨key rest, (key rest).trans (key rest2).symm⟩

/-- C7 witness: with a matching port that fails to open placed before a
matching port that would open, the result is `NotFound` and is unchanged
when the later ports are removed — the later openable port is never tried. -/
theorem C7_witness :
    open_device_from_selector selBMP
        (Except.ok ([portNonUsb] ++ portMatchFailOpen :: [portMatchOpens]))
      = Except.error ProbeCreationError.NotFound
    ∧ open_device_from_selector selBMP
        (Except.ok ([portNonUsb] ++ portMatchFailOpen :: [portMatchOpens]))
      = open_device_from_selector selBMP
          (Except.ok ([portNonUsb] ++ portMatchFailOpen :: [])) := by
  have h := C7_first_match_policy selBMP [portNonUsb] portMatchFailOpen
    [portMatchOpens] [] (by decide) (by decide)
  exact ⟨h.1, h.2⟩

/-- C5: `get_bmp_info` emits an identity if and only if the device's
descriptor is readable with vendor id `0x1d50`, the device opens, the
language table is readable and non-empty, and the product string is readable
and starts with "Black Magic Probe"; every other device yields `none` — the
function cannot return an error. -/
theorem C5_discovery_characterisation (dev : UsbDevice) :
    (get_bmp_info dev).isSome = true ↔
      (∃ desc, dev.descriptor = some desc ∧ desc.vendor_id = 0x1d50)
      ∧ dev.open_ok = true
      ∧ (∃ langs, dev.languages = some langs ∧ langs ≠ [])
      ∧ (∃ s, dev.product_string = some s
          ∧ stringStartsWith s ("Black Magic Probe") = true) := by
  obtain ⟨odesc, ok, olangs, oprod, sn⟩ := dev
  cases odesc with
  | none => simp [get_bmp_info]
  | some desc =>
      by_cases hv : desc.vendor_id = 0x1d50
      · cases ok with
        | false => simp [get_bmp_info, hv]
        | true =>
            cases olangs with
            | none => simp [get_bmp_info, hv]
            | some langs =>
                cases langs with
                | nil => simp [get_bmp_info, hv]
                | cons l ls =>
                    cases oprod with
                    | none => simp [get_bmp_info, hv]
                    | some str =>
                        by_cases hs : stringStartsWith str ("Black Magic Probe") = true
                        · simp [get_bmp_info, hv, hs]
                        · simp [get_bmp_info, hv, hs]
      · simp [get_bmp_info, hv]

/-- C8: discovery scanning never fails the caller — a failed USB context or
enumeration yields the empty list, zero devices yield the empty list, and a
device on which `get_bmp_info` fails is simply omitted while the remaining
devices are still scanned. -/
theorem C8_scan_never_fails (pre post : List UsbDevice) (d : UsbDevice) :
    list_bmp_devices (Except.error ()) = []
    ∧ list_bmp_devices (Except.ok []) = []
    ∧ (get_bmp_info d = none →
        list_bmp_devices (Except.ok (pre ++ d :: post))
          = list_bmp_devices (Except.ok (pre ++ post))) := by
  refine ⟨rfl, rfl, ?_⟩
  intro hd
  show (pre ++ d :: post).filterMap get_bmp_info
      = (pre ++ post).filterMap get_bmp_info
  simp [List.filterMap_append, List.filterMap_cons, hd]

/-- A device whose vendor id is not `0x1d50`, used as the skipped device in
`C8_witness`. -/
def wrongVendorDevice : UsbDevice :=
  { descriptor := some { vendor_id := 0x1234, product_id := 0x5678 },
    open_ok := true,
    languages := some [0x0409],
    product_string := some ("Some Other Probe"),
    serial_number_string := none }

/-- C8 witness: a failed enumeration gives `[]`, and a list holding only a
non-BMP device gives `[]`: the bad device is omitted, no error is raised. -/
theorem C8_witness :
    list_bmp_devices (Except.error ()) = []
    ∧ list_bmp_devices (Except.ok [wrongVendorDevice]) = [] := by
  have h := C8_scan_never_fails [] [] wrongVendorDevice
  exact ⟨h.1, by simpa using h.2.2 (by rfl)⟩

/-- C9: for every `u32` value, `set_speed` succeeds returning exactly that
value, the stored speed becomes that value (so `speed()` reflects it), and
the protocol and device fields are untouched. -/
theorem C9_set_speed_store_reflect (p : BMPProbe) (x : Nat) (hx : x < 2 ^ 32) :
    (p.set_speed x).2 = Except.ok x
    ∧ (p.set_speed x).1.speed = x
    ∧ (p.set_speed x).1.protocol = p.protocol
    ∧ (p.set_speed x).1.device = p.device :=
  ⟨rfl, rfl, rfl, rfl⟩

/-- C9 witness: `set_speed 5000` on a concrete probe returns `Ok 5000` and
the stored speed reads back 5000. -/
theorem C9_witness :
    ((BMPProbe.new_from_device sampleDevice).set_speed 5000).2 = Except.ok 5000
    ∧ ((BMPProbe.new_from_device sampleDevice).set_speed 5000).1.speed = 5000 :=
  ⟨(C9_set_speed_store_reflect (BMPProbe.new_from_device sampleDevice) 5000
      (by norm_num)).1,
   (C9_set_speed_store_reflect (BMPProbe.new_from_device sampleDevice) 5000
      (by norm_num)).2.1⟩

/-- C10: on every probe state, `target_reset`, `target_reset_assert` and
`target_reset_deassert` panic (`unimplemented!`) — none of them ever returns
success, so the missing reset support fails loudly rather than silently
no-opping. -/
theorem C10_reset_never_succeeds (p : BMPProbe) :
    p.target_reset = ResetOutcome.panics
    ∧ p.target_reset_assert = ResetOutcome.panics
    ∧ p.target_reset_deassert = ResetOutcome.panics
    ∧ p.target_reset ≠ ResetOutcome.ok
    ∧ p.target_reset_assert ≠ ResetOutcome.ok
    ∧ p.target_reset_deassert ≠ ResetOutcome.ok := by
  refine ⟨rfl, rfl, rfl, ?_, ?_, ?_⟩ <;> intro h <;> cases h

/-- C2 witness: selecting JTAG on a concrete probe succeeds. -/
theorem C2_witness :
    ((BMPProbe.new_from_device sampleDevice).select_protocol
        WireProtocol.Jtag).2 = Except.ok () :=
  ((C2_select_protocol_iff_jtag (BMPProbe.new_from_device sampleDevice)
      WireProtocol.Jtag sampleDevice).1).mpr rfl

/-- A device passing every discovery check, used in `C5_witness`. -/
def goodDevice : UsbDevice :=
  { descriptor := some { vendor_id := 0x1d50, product_id := 0x6018 },
    open_ok := true,
    languages := some [0x0409],
    product_string := some ("Black Magic Probe v1.8"),
    serial_number_string := some ("BMP-SN-1") }

/-- C5 witness: a device with vendor id `0x1d50`, readable language table and
a product string with the expected name yields an identity. -/
theorem C5_witness : (get_bmp_info goodDevice).isSome = true :=
  (C5_discovery_characterisation goodDevice).mpr
    ⟨⟨_, rfl, rfl⟩, rfl, ⟨_, rfl, by decide⟩, ⟨_, rfl, by decide⟩⟩

/-- C10 witness: `target_reset` on a concrete probe panics and is not a
success. -/
theorem C10_witness :
    BMPProbe.target_reset (BMPProbe.new_from_device sampleDevice)
        = ResetOutcome.panics
    ∧ BMPProbe.target_reset (BMPProbe.new_from_device sampleDevice)
        ≠ ResetOutcome.ok :=
  ⟨(C10_reset_never_succeeds (BMPProbe.new_from_device sampleDevice)).1,
   (C10_reset_never_succeeds (BMPProbe.new_from_device sampleDevice)).2.2.2.1⟩

end BMP
